import Mathlib

/-!
# Verification of the stratis CLI command-dispatch and RPC-translation layer

A shallow embedding of the stratis command-line client: the `Manager` D-Bus
interface wrapper (`src/stratis_cli/_dbus/_manager.py`), the command-line
grammar builders (`src/stratis_cli/_parser/_parser.py`), and — modelled from
the design document where the corresponding modules are not part of the
sources at hand — the error-code catalog, the action-dispatch layer and the
daemon simulator that the integration tests (`tests/integration/logical`)
exercise.
-/

set_option autoImplicit false

/-! ## D-Bus transport model

Values travelling over the bus (strings, integers, and sequences thereof). -/

inductive DBusValue where
  | s : String → DBusValue
  | i : Int → DBusValue
  | arr : List DBusValue → DBusValue

/-- A remote D-Bus object proxy.  `call m args iface` performs the remote
method call `m(args, dbus_interface=iface)`; `getProp iface prop` performs a
property read.  The transport's behaviour is abstract: any function of the
method name, the argument list and the interface keyword. -/
structure DBusObject where
  call : String → List DBusValue → String → DBusValue
  getProp : String → String → DBusValue

/-- Modelled from the spec: `Properties` lives in `_dbus.py`, which is not
among the sources at hand.  Per the design, `getProperty(interfaceName,
propertyName)` is a read-only property fetch against the remote object. -/
def Properties.Get (dbus_object : DBusObject) (interface_name property_name : String) : DBusValue :=
  dbus_object.getProp interface_name property_name

/-! ## The Manager wrapper (`_manager.py`) -/

/-- The `Manager` class: holds exactly one field, the dbus object handle
stored by `__init__`. -/
structure Manager where
  dbus_object : DBusObject

/-- `Manager._INTERFACE_NAME`. -/
def Manager.INTERFACE_NAME : String := "org.storage.stratis1.Manager"

def Manager.CreatePool (self : Manager) (pool_name devices redundancy : DBusValue) : DBusValue :=
  self.dbus_object.call "CreatePool" [pool_name, devices, redundancy] Manager.INTERFACE_NAME

def Manager.DestroyPool (self : Manager) (pool_name : DBusValue) : DBusValue :=
  self.dbus_object.call "DestroyPool" [pool_name] Manager.INTERFACE_NAME

def Manager.GetCacheObjectPath (self : Manager) (pool : DBusValue) : DBusValue :=
  self.dbus_object.call "GetCacheObjectPath" [pool] Manager.INTERFACE_NAME

def Manager.GetErrorCodes (self : Manager) : DBusValue :=
  self.dbus_object.call "GetErrorCodes" [] Manager.INTERFACE_NAME

def Manager.GetPoolObjectPath (self : Manager) (pool_name : DBusValue) : DBusValue :=
  self.dbus_object.call "GetPoolObjectPath" [pool_name] Manager.INTERFACE_NAME

def Manager.GetRaidLevels (self : Manager) : DBusValue :=
  self.dbus_object.call "GetRaidLevels" [] Manager.INTERFACE_NAME

def Manager.GetVolumeObjectPath (self : Manager) (pool_name volume_name : DBusValue) : DBusValue :=
  self.dbus_object.call "GetVolumeObjectPath" [pool_name, volume_name] Manager.INTERFACE_NAME

def Manager.ListPools (self : Manager) : DBusValue :=
  self.dbus_object.call "ListPools" [] Manager.INTERFACE_NAME

def Manager.Version (self : Manager) : DBusValue :=
  Properties.Get self.dbus_object Manager.INTERFACE_NAME "Version"

def Manager.LogLevel (self : Manager) : DBusValue :=
  Properties.Get self.dbus_object Manager.INTERFACE_NAME "LogLevel"

/-! State-passing view of the Manager: one constructor per method and
property of the class.  The Python method bodies are single `return`
statements and contain no assignment to `self`, so the translation of each
call returns the receiver unchanged together with the call's value. -/

inductive ManagerMethod where
  | createPool (pool_name devices redundancy : DBusValue)
  | destroyPool (pool_name : DBusValue)
  | getCacheObjectPath (pool : DBusValue)
  | getErrorCodes
  | getPoolObjectPath (pool_name : DBusValue)
  | getRaidLevels
  | getVolumeObjectPath (pool_name volume_name : DBusValue)
  | listPools
  | versionProp
  | logLevelProp

def Manager.callMethod (self : Manager) : ManagerMethod → DBusValue × Manager
  | .createPool n d r => (self.CreatePool n d r, self)
  | .destroyPool n => (self.DestroyPool n, self)
  | .getCacheObjectPath p => (self.GetCacheObjectPath p, self)
  | .getErrorCodes => (self.GetErrorCodes, self)
  | .getPoolObjectPath n => (self.GetPoolObjectPath n, self)
  | .getRaidLevels => (self.GetRaidLevels, self)
  | .getVolumeObjectPath p v => (self.GetVolumeObjectPath p v, self)
  | .listPools => (self.ListPools, self)
  | .versionProp => (self.Version, self)
  | .logLevelProp => (self.LogLevel, self)

/-- The Manager state after an arbitrary interleaving of method calls. -/
def Manager.afterCalls (self : Manager) : List ManagerMethod → Manager
  | [] => self
  | c :: cs => ((self.callMethod c).2).afterCalls cs

/-! ## Error Code Catalog (`_stratisd_constants.py`, modelled from the spec) -/

/-- One row of the daemon's `GetErrorCodes` result: symbolic name, integer
code, human-readable description. -/
abbrev ErrorCodeEntry := String × Int × String

/-- The process-wide cache slot of the catalog singleton: `none` before the
first access, `some catalog` afterwards. -/
structure CatalogState where
  cached : Option (List ErrorCodeEntry)
deriving DecidableEq, Repr

/-- Modelled from the spec: `StratisdErrorsGen.get_object` lives in
`_stratisd_constants.py`, which is not among the sources at hand.  Per the
design, the catalog singleton is uninitialized at process start; the first
access issues exactly one `GetErrorCodes` RPC call through the Manager
wrapper, builds the mapping and caches it; subsequent accesses return the
cached mapping with no further RPC traffic.  `daemonCatalog` is what the
daemon would answer to `GetErrorCodes`; the result triple is the mapping
returned to the caller, the state after the access, and the number of
`GetErrorCodes` RPC calls this access issued. -/
def StratisdErrorsGen.get_object (daemonCatalog : List ErrorCodeEntry) (s : CatalogState) :
    List ErrorCodeEntry × CatalogState × Nat :=
  match s.cached with
  | some c => (c, s, 0)
  | none => (daemonCatalog, ⟨some daemonCatalog⟩, 1)

/-- A sequence of `n` successive accesses to the catalog singleton; returns
the final state and the total number of `GetErrorCodes` RPC calls issued. -/
def accessCatalog (daemonCatalog : List ErrorCodeEntry) : Nat → CatalogState → CatalogState × Nat
  | 0, s => (s, 0)
  | Nat.succ n, s =>
    let r := StratisdErrorsGen.get_object daemonCatalog s
    let rest := accessCatalog daemonCatalog n r.2.1
    (rest.1, r.2.2 + rest.2)

/-- Modelled from the spec: `code_for(symbolicName)` resolves a symbolic
error name to its integer code against the fetched catalog. -/
def code_for (catalog : List ErrorCodeEntry) (name : String) : Option Int :=
  (catalog.find? (fun e => e.1 == name)).map (fun e => e.2.1)

/-- Modelled from the spec: `describe(code)` is the reverse lookup, from an
integer code to the recorded (symbolic name, description) pair. -/
def describe (catalog : List ErrorCodeEntry) (code : Int) : Option (String × String) :=
  (catalog.find? (fun e => e.2.1 == code)).map (fun e => (e.1, e.2.2))

/-! ## Command table and grammar builders (`_parser.py`) -/

/-- `nargs` shapes used by the grammar: the default (exactly one token) and
`nargs='+'` (one or more tokens). -/
inductive Nargs where
  | one
  | oneOrMore
deriving DecidableEq, Repr

/-- A positional argument declaration (`add_argument('name', ...)`). -/
structure Positional where
  name : String
  nargs : Nargs
deriving DecidableEq, Repr

/-- An optional (`--flag`) argument declaration with `action='store'`:
its permitted `choices` (if constrained) and its default value. -/
structure OptionalArg where
  name : String
  choices : Option (List String)
  defaultVal : Option String
deriving DecidableEq, Repr

/-- An optional argument with `action='store_true'` inside a mutually
exclusive group; `defaultVal` is its declared default. -/
structure StoreTrueFlag where
  name : String
  defaultVal : Bool
deriving DecidableEq, Repr

/-- A mutually exclusive group (`add_mutually_exclusive_group`). -/
structure MutexGroup where
  required : Bool
  flags : List StoreTrueFlag
deriving DecidableEq, Repr

/-- The action functions bound via `set_defaults(func=...)`.  The
`logicalActions`/`physicalActions` constructors stand for the second-tier
actions of the `filesystem` and `blockdev` dispatch tiers. -/
inductive ActionFunc where
  | stratisActionsDispatch
  | topActionsListPools
  | topActionsCreatePool
  | topActionsDestroyPool
  | topActionsRenamePool
  | logicalActionsCreateVolumes
  | logicalActionsDestroyVolumes
  | logicalActionsListVolumes
  | physicalActionsListDevices
deriving DecidableEq, Repr

/-- A second-tier subcommand grammar (a leaf of the dispatch tree). -/
structure SubCmdSpec where
  positionals : List Positional
  optionals : List OptionalArg
  func : Option ActionFunc
deriving DecidableEq, Repr

/-- The grammar of one top-level subcommand: the `ArgumentParser` handed to
a builder function of `_parser.py`. -/
structure CmdSpec where
  positionals : List Positional
  optionals : List OptionalArg
  mutexGroups : List MutexGroup
  func : Option ActionFunc
  subcommands : List (String × SubCmdSpec)
deriving DecidableEq, Repr

/-- The whole CLI grammar produced by `gen_parser`. -/
structure CliSpec where
  prog : String
  versionFlag : Bool
  subcommands : List (String × CmdSpec)
deriving DecidableEq, Repr

def CmdSpec.empty : CmdSpec := ⟨[], [], [], none, []⟩

def CmdSpec.addPositional (p : CmdSpec) (name : String) (n : Nargs) : CmdSpec :=
  { p with positionals := p.positionals ++ [⟨name, n⟩] }

def CmdSpec.addOptional (p : CmdSpec) (name : String) (choices : Option (List String))
    (defaultVal : Option String) : CmdSpec :=
  { p with optionals := p.optionals ++ [⟨name, choices, defaultVal⟩] }

def MutexGroup.addArgument (g : MutexGroup) (name : String) (defaultVal : Bool) : MutexGroup :=
  { g with flags := g.flags ++ [⟨name, defaultVal⟩] }

def CmdSpec.attachGroup (p : CmdSpec) (g : MutexGroup) : CmdSpec :=
  { p with mutexGroups := p.mutexGroups ++ [g] }

def CmdSpec.setDefaults (p : CmdSpec) (f : ActionFunc) : CmdSpec :=
  { p with func := some f }

/-- `build_stratisd_parser`: a required mutually exclusive group of the
three `store_true` flags, then `set_defaults(func=StratisActions.dispatch)`. -/
def buildStratisdCmd (p : CmdSpec) : CmdSpec :=
  let group : MutexGroup := ⟨true, []⟩
  let group := group.addArgument "--log-level" false
  let group := group.addArgument "--redundancy" false
  let group := group.addArgument "--version" false
  (p.attachGroup group).setDefaults ActionFunc.stratisActionsDispatch

/-- `build_list_parser`. -/
def buildListCmd (p : CmdSpec) : CmdSpec :=
  p.setDefaults ActionFunc.topActionsListPools

/-- `build_create_parser`. -/
def buildCreateCmd (p : CmdSpec) : CmdSpec :=
  let p := p.addPositional "name" Nargs.one
  let p := p.addPositional "device" Nargs.oneOrMore
  let p := p.addOptional "--redundancy" (some ["none"]) (some "none")
  p.setDefaults ActionFunc.topActionsCreatePool

/-- `build_destroy_parser`. -/
def buildDestroyCmd (p : CmdSpec) : CmdSpec :=
  let p := p.addPositional "name" Nargs.one
  p.setDefaults ActionFunc.topActionsDestroyPool

/-- `build_rename_parser`. -/
def buildRenameCmd (p : CmdSpec) : CmdSpec :=
  let p := p.addPositional "current" Nargs.one
  let p := p.addPositional "new" Nargs.one
  p.setDefaults ActionFunc.topActionsRenamePool

/-- Modelled from the spec: `build_logical_parser` lives in `_logical.py`,
which is not among the sources at hand.  Per the design, `filesystem`
introduces a second dispatch tier of operations scoped to an existing pool,
each second-tier subcommand binding its own action; the integration tests
drive `filesystem create <pool> <volume>...` and `filesystem list <pool>`. -/
def buildLogicalCmd (p : CmdSpec) : CmdSpec :=
  { p with subcommands := p.subcommands ++
      [("create", ⟨[⟨"pool", Nargs.one⟩, ⟨"volume", Nargs.oneOrMore⟩], [],
          some ActionFunc.logicalActionsCreateVolumes⟩),
       ("destroy", ⟨[⟨"pool", Nargs.one⟩, ⟨"volume", Nargs.oneOrMore⟩], [],
          some ActionFunc.logicalActionsDestroyVolumes⟩),
       ("list", ⟨[⟨"pool", Nargs.one⟩], [],
          some ActionFunc.logicalActionsListVolumes⟩)] }

/-- Modelled from the spec: `build_physical_parser` lives in `_physical.py`,
which is not among the sources at hand.  Per the design, `blockdev`
introduces a second dispatch tier of operations scoped to an existing pool. -/
def buildPhysicalCmd (p : CmdSpec) : CmdSpec :=
  { p with subcommands := p.subcommands ++
      [("list", ⟨[⟨"pool", Nargs.one⟩], [],
          some ActionFunc.physicalActionsListDevices⟩)] }

/-- `_SUBPARSER_TABLE`, in the source's literal order. -/
def SUBPARSER_TABLE : List (String × (CmdSpec → CmdSpec)) :=
  [("blockdev", buildPhysicalCmd),
   ("create", buildCreateCmd),
   ("destroy", buildDestroyCmd),
   ("list", buildListCmd),
   ("filesystem", buildLogicalCmd),
   ("stratisd", buildStratisdCmd),
   ("rename", buildRenameCmd)]

/-- Look a builder up in `_SUBPARSER_TABLE`. -/
def tableBuilder (n : String) : CmdSpec → CmdSpec :=
  ((SUBPARSER_TABLE.find? (fun e => e.1 == n)).map (fun e => e.2)).getD id

/-- `gen_parser`: the top-level grammar with `prog='stratis'`, the global
`--version` action, and the seven subcommands registered in the source's
order, each built by its `_SUBPARSER_TABLE` entry on a fresh subparser. -/
def genCli : CliSpec :=
  { prog := "stratis",
    versionFlag := true,
    subcommands :=
      [("blockdev", tableBuilder "blockdev" CmdSpec.empty),
       ("create", tableBuilder "create" CmdSpec.empty),
       ("destroy", tableBuilder "destroy" CmdSpec.empty),
       ("filesystem", tableBuilder "filesystem" CmdSpec.empty),
       ("list", tableBuilder "list" CmdSpec.empty),
       ("stratisd", tableBuilder "stratisd" CmdSpec.empty),
       ("rename", tableBuilder "rename" CmdSpec.empty)] }

/-! ### Acceptance semantics of the declared grammars -/

/-- Does a mutually exclusive group accept the set of option strings given
on a command line?  Required groups demand at least one member; mutual
exclusion forbids two distinct members. -/
def MutexGroup.accepts (g : MutexGroup) (given : List String) : Bool :=
  (!g.required || g.flags.any (fun f => given.contains f.name)) &&
    decide ((g.flags.filter (fun f => given.contains f.name)).length ≤ 1)

/-- Is an option string declared by this grammar? -/
def CmdSpec.knownOption (p : CmdSpec) (n : String) : Bool :=
  p.optionals.any (fun o => o.name == n) ||
    p.mutexGroups.any (fun g => g.flags.any (fun f => f.name == n))

/-- Does the grammar accept the set of option strings given on a command
line?  Unknown options are rejected and every group must accept. -/
def CmdSpec.acceptsOptions (p : CmdSpec) (given : List String) : Bool :=
  given.all p.knownOption && p.mutexGroups.all (fun g => g.accepts given)

/-- The option strings present on a `stratisd` command line, by presence of
each of the three flags. -/
def stratisdGiven (logLevel redundancy version : Bool) : List String :=
  (if logLevel then ["--log-level"] else []) ++
    (if redundancy then ["--redundancy"] else []) ++
    (if version then ["--version"] else [])

/-- Minimum number of positional tokens a positional list demands (every
declared positional, `one` or `oneOrMore`, demands at least one token). -/
def minPositionalCount : List Positional → Nat
  | [] => 0
  | _ :: ps => 1 + minPositionalCount ps

/-- Does some declared positional absorb unboundedly many tokens? -/
def hasUnbounded (ps : List Positional) : Bool :=
  ps.any (fun p => p.nargs == Nargs.oneOrMore)

/-- Does a positional declaration list accept `n` positional tokens? -/
def positionalsAccept (ps : List Positional) (n : Nat) : Bool :=
  decide (minPositionalCount ps ≤ n) && (hasUnbounded ps || n == minPositionalCount ps)

/-- Does a `store` optional accept a value?  `choices` constrains it. -/
def OptionalArg.acceptsValue (o : OptionalArg) (v : String) : Bool :=
  match o.choices with
  | some cs => cs.contains v
  | none => true

/-- A builder "binds a default action" when it sets `func` itself or, for
the two-level subcommands, when every second-tier subcommand it declares
sets `func`. -/
def CmdSpec.bindsDefaultAction (p : CmdSpec) : Bool :=
  p.func.isSome || (!p.subcommands.isEmpty && p.subcommands.all (fun s => s.2.func.isSome))

/-! ## Daemon simulator and action dispatch (modelled from the spec)

The `_actions`, `_errors` and `_main` modules and the stratisd simulator the
integration tests drive are not among the sources at hand; the layer is
modelled from the design document, sections 4.2, 4.5 and 7. -/

/-- The daemon simulator's state: its error-code catalog, its pools (name
with the ordered list of volume names carved from the pool), and the names
of pools holding a cache. -/
structure Daemon where
  catalog : List ErrorCodeEntry
  pools : List (String × List String)
  caches : List String
deriving DecidableEq, Repr

/-- A symbolic code resolved against the daemon's own catalog (the daemon
reports codes from the same catalog it serves via `GetErrorCodes`);
`fallback` is only reached on a malformed catalog. -/
def Daemon.codeOf (d : Daemon) (sym : String) (fallback : Int) : Int :=
  (code_for d.catalog sym).getD fallback

/-- The opaque object path the daemon assigns to a pool. -/
def poolObjectPath (name : String) : String :=
  "/org/storage/stratis/pool/" ++ name

/-- Modelled from the spec: daemon-side `GetPoolObjectPath` — name-to-path
resolution, returning `(objectPath, rc, message)`; `rc = 0` is the success
code and the domain "pool not found" code is reported when no pool matches. -/
def GetPoolObjectPathSem (d : Daemon) (name : String) : String × Int × String :=
  match d.pools.find? (fun p => p.1 == name) with
  | some _ => (poolObjectPath name, 0, "")
  | none => ("", d.codeOf "STRATIS_POOL_NOTFOUND" 1, "pool not found")

/-- Modelled from the spec: daemon-side `GetVolumeObjectPath` — fails with
the domain "pool not found" code when the pool is absent and the domain
"volume not found" code when the pool exists but the volume does not. -/
def GetVolumeObjectPathSem (d : Daemon) (pool volume : String) : String × Int × String :=
  match d.pools.find? (fun p => p.1 == pool) with
  | none => ("", d.codeOf "STRATIS_POOL_NOTFOUND" 1, "pool not found")
  | some entry =>
    if entry.2.contains volume then
      (poolObjectPath pool ++ "/" ++ volume, 0, "")
    else
      ("", d.codeOf "STRATIS_VOLUME_NOTFOUND" 1, "volume not found")

/-- Modelled from the spec: daemon-side `GetCacheObjectPath` — fails with a
domain "not found" code when the named pool holds no cache. -/
def GetCacheObjectPathSem (d : Daemon) (pool : String) : String × Int × String :=
  if d.caches.contains pool then
    ("/org/storage/stratis/cache/" ++ pool, 0, "")
  else
    ("", d.codeOf "STRATIS_CACHE_NOTFOUND" 1, "cache not found")

/-- Modelled from the spec: daemon-side `ListVolumes` against a resolved
pool object path — a one-round-trip snapshot of the pool's volumes. -/
def ListVolumesSem (d : Daemon) (path : String) : List String :=
  ((d.pools.find? (fun p => poolObjectPath p.1 == path)).map (fun p => p.2)).getD []

/-- The RPC calls an action can issue, for tracing. -/
inductive RpcCall where
  | getPoolObjectPath (name : String)
  | getVolumeObjectPath (pool volume : String)
  | getCacheObjectPath (pool : String)
  | listVolumes (path : String)
  | listPools
  | createVolumes (path : String) (volumes : List String)
  | destroyVolumes (path : String) (volumes : List String)
deriving DecidableEq, Repr

/-- Which RPC operations mutate daemon-side state. -/
def RpcCall.mutating : RpcCall → Bool
  | .createVolumes _ _ => true
  | .destroyVolumes _ _ => true
  | _ => false

/-- The outcome an action propagates to the command-line boundary:
success with a payload, a structured `StratisCliRuntimeError` carrying the
daemon-reported return code `rc` and a message, a transport-level failure,
or a usage error caught by the parsing front end. -/
inductive CliOutcome (α : Type) where
  | ok : α → CliOutcome α
  | runtimeError : Int → String → CliOutcome α
  | transportError : String → CliOutcome α
  | usageError : CliOutcome α
deriving DecidableEq, Repr

/-- Modelled from the spec: the logical `list` action — resolve the pool
name to an object path via `Manager.GetPoolObjectPath`, failing immediately
with a structured runtime error carrying the reported domain code when
resolution fails; on success perform one `ListVolumes` RPC against the
resolved path and return the snapshot.  Returns the RPC trace and the
outcome. -/
def listVolumesAction (d : Daemon) (poolName : String) :
    List RpcCall × CliOutcome (List String) :=
  match GetPoolObjectPathSem d poolName with
  | (path, rc, msg) =>
    if rc == 0 then
      ([RpcCall.getPoolObjectPath poolName, RpcCall.listVolumes path],
        CliOutcome.ok (ListVolumesSem d path))
    else
      ([RpcCall.getPoolObjectPath poolName], CliOutcome.runtimeError rc msg)

/-- Replace a pool's volume list by appending the freshly created volumes. -/
def addVolumes : List (String × List String) → String → List String → List (String × List String)
  | [], _, _ => []
  | p :: ps, name, vols =>
    if p.1 == name then (p.1, p.2 ++ vols) :: ps else p :: addVolumes ps name vols

/-- Modelled from the spec: the logical `create` action — resolve the pool
name first, failing immediately with the reported domain code before the
mutating `CreateVolumes` RPC is attempted; on success issue the mutating
call.  Returns the RPC trace, the outcome and the daemon state afterwards. -/
def createVolumesAction (d : Daemon) (poolName : String) (volumes : List String) :
    List RpcCall × CliOutcome Unit × Daemon :=
  match GetPoolObjectPathSem d poolName with
  | (path, rc, msg) =>
    if rc == 0 then
      ([RpcCall.getPoolObjectPath poolName, RpcCall.createVolumes path volumes],
        CliOutcome.ok (), { d with pools := addVolumes d.pools poolName volumes })
    else
      ([RpcCall.getPoolObjectPath poolName], CliOutcome.runtimeError rc msg, d)

/-- Modelled from the spec: `_main.run` — parse the command line with the
generated grammar and invoke the bound action; modelled here for the
`filesystem list` command-line shape the claims exercise.  Anything else is
rejected by the parsing front end before an RPC call is attempted. -/
def run (d : Daemon) (commandLine : List String) : List RpcCall × CliOutcome (List String) :=
  match commandLine with
  | ["filesystem", "list", pool] => listVolumesAction d pool
  | _ => ([], CliOutcome.usageError)

/-! ## Helper lemmas -/

theorem string_append_cancel_left {s a b : String} (h : s ++ a = s ++ b) : a = b := by
  have hd := congrArg String.data h
  simp only [String.data_append] at hd
  exact String.ext (List.append_cancel_left hd)

theorem poolObjectPath_beq (a b : String) :
    (poolObjectPath a == poolObjectPath b) = (a == b) := by
  by_cases h : a = b
  · simp [h]
  · have hne : poolObjectPath a ≠ poolObjectPath b :=
      fun hc => h (string_append_cancel_left hc)
    simp [h, hne]

theorem accessCatalog_cached (cat c : List ErrorCodeEntry) :
    ∀ n, accessCatalog cat n ⟨some c⟩ = (⟨some c⟩, 0)
  | 0 => rfl
  | Nat.succ n => by
    simp [accessCatalog, StratisdErrorsGen.get_object, accessCatalog_cached cat c n]

/-! ## Claim theorems -/

/-- C1: Every operation of the Manager wrapper (CreatePool, DestroyPool,
GetCacheObjectPath, GetErrorCodes, GetPoolObjectPath, GetRaidLevels,
GetVolumeObjectPath, ListPools) is a one-to-one thin forward to the
underlying remote object's same-named method: it passes its arguments
unchanged and in the same order, always supplies the fixed interface name
'org.storage.stratis1.Manager' automatically, and returns the transport's
result with no further interpretation. -/
theorem manager_ops_thin_forward :
    ∀ (m : Manager) (a b c : DBusValue),
      m.CreatePool a b c =
        m.dbus_object.call "CreatePool" [a, b, c] "org.storage.stratis1.Manager" ∧
      m.DestroyPool a =
        m.dbus_object.call "DestroyPool" [a] "org.storage.stratis1.Manager" ∧
      m.GetCacheObjectPath a =
        m.dbus_object.call "GetCacheObjectPath" [a] "org.storage.stratis1.Manager" ∧
      m.GetErrorCodes =
        m.dbus_object.call "GetErrorCodes" [] "org.storage.stratis1.Manager" ∧
      m.GetPoolObjectPath a =
        m.dbus_object.call "GetPoolObjectPath" [a] "org.storage.stratis1.Manager" ∧
      m.GetRaidLevels =
        m.dbus_object.call "GetRaidLevels" [] "org.storage.stratis1.Manager" ∧
      m.GetVolumeObjectPath a b =
        m.dbus_object.call "GetVolumeObjectPath" [a, b] "org.storage.stratis1.Manager" ∧
      m.ListPools =
        m.dbus_object.call "ListPools" [] "org.storage.stratis1.Manager" :=
  fun _ _ _ _ => ⟨rfl, rfl, rfl, rfl, rfl, rfl, rfl, rfl⟩

/-- C10: No Manager operation mutates client-side state: for every method
and property of the Manager wrapper, the Manager object's only field (the
stored dbus_object handle) is the same after the call as before, so any
interleaving of Manager calls leaves the wrapper observably unchanged. -/
theorem manager_no_client_side_mutation :
    ∀ (m : Manager) (c : ManagerMethod) (cs : List ManagerMethod),
      (m.callMethod c).2 = m ∧
      (m.callMethod c).2.dbus_object = m.dbus_object ∧
      m.afterCalls cs = m ∧
      Manager.mk m.dbus_object = m := by
  intro m c cs
  have hstep : ∀ c' : ManagerMethod, (m.callMethod c').2 = m := by
    intro c'; cases c' <;> rfl
  refine ⟨hstep c, by rw [hstep c], ?_, rfl⟩
  induction cs with
  | nil => rfl
  | cons head tail ih =>
    show ((m.callMethod head).2).afterCalls tail = m
    rw [hstep head]
    exact ih

/-- C5: The `stratisd` subcommand's parser defines a mutually-exclusive,
required flag group of exactly the three flags --log-level, --redundancy,
and --version (each a boolean defaulting to False), and binds
StratisActions.dispatch as the single action for all three; hence parsing
succeeds only when exactly one of the three flags is given. -/
theorem stratisd_cmd_mutex_group :
    buildStratisdCmd CmdSpec.empty =
      { positionals := [], optionals := [],
        mutexGroups := [⟨true,
          [⟨"--log-level", false⟩, ⟨"--redundancy", false⟩, ⟨"--version", false⟩]⟩],
        func := some ActionFunc.stratisActionsDispatch,
        subcommands := [] } ∧
    ∀ logLevel redundancy version : Bool,
      (buildStratisdCmd CmdSpec.empty).acceptsOptions
          (stratisdGiven logLevel redundancy version) =
        ((logLevel && !redundancy && !version) ||
          (!logLevel && redundancy && !version) ||
          (!logLevel && !redundancy && version)) := by
  exact ⟨rfl, by decide⟩

/-- C9: The `create` subcommand's grammar requires one positional pool name
followed by one or more device arguments, and accepts an optional
--redundancy flag whose only permitted value is 'none', which is also its
default; the parser binds TopActions.create_pool as the action. -/
theorem create_cmd_grammar :
    buildCreateCmd CmdSpec.empty =
      { positionals := [⟨"name", Nargs.one⟩, ⟨"device", Nargs.oneOrMore⟩],
        optionals := [⟨"--redundancy", some ["none"], some "none"⟩],
        mutexGroups := [],
        func := some ActionFunc.topActionsCreatePool,
        subcommands := [] } ∧
    (∀ n : Nat,
      positionalsAccept (buildCreateCmd CmdSpec.empty).positionals n = true ↔ 2 ≤ n) ∧
    (∀ v : String,
      ((buildCreateCmd CmdSpec.empty).optionals.all (fun o => o.acceptsValue v)) = true ↔
        v = "none") := by
  refine ⟨rfl, ?_, ?_⟩
  · intro n
    show positionalsAccept [⟨"name", Nargs.one⟩, ⟨"device", Nargs.oneOrMore⟩] n = true ↔ 2 ≤ n
    simp [positionalsAccept, minPositionalCount, hasUnbounded]
  · intro v
    show (List.all [OptionalArg.mk "--redundancy" (some ["none"]) (some "none")]
        (fun o => o.acceptsValue v)) = true ↔ v = "none"
    simp [OptionalArg.acceptsValue, List.contains, eq_comm]

/-- C6: The command table maps exactly the seven top-level subcommand names
create, destroy, list, rename, blockdev, filesystem, and stratisd, each to
a builder function that declares that subcommand's arguments and binds a
default action function; gen_parser registers all seven and building the
table has no side effects beyond producing the grammar object. -/
theorem subcommand_table_registers_seven :
    SUBPARSER_TABLE.map Prod.fst =
      ["blockdev", "create", "destroy", "list", "filesystem", "stratisd", "rename"] ∧
    (SUBPARSER_TABLE.map Prod.fst).Perm
      ["create", "destroy", "list", "rename", "blockdev", "filesystem", "stratisd"] ∧
    genCli =
      { prog := "stratis", versionFlag := true,
        subcommands :=
          [("blockdev", buildPhysicalCmd CmdSpec.empty),
           ("create", buildCreateCmd CmdSpec.empty),
           ("destroy", buildDestroyCmd CmdSpec.empty),
           ("filesystem", buildLogicalCmd CmdSpec.empty),
           ("list", buildListCmd CmdSpec.empty),
           ("stratisd", buildStratisdCmd CmdSpec.empty),
           ("rename", buildRenameCmd CmdSpec.empty)] } ∧
    genCli.subcommands.map Prod.fst =
      ["blockdev", "create", "destroy", "filesystem", "list", "stratisd", "rename"] ∧
    SUBPARSER_TABLE.all (fun e => (e.2 CmdSpec.empty).bindsDefaultAction) = true := by
  refine ⟨rfl, by decide, by decide, rfl, by decide⟩

/-- C3: For every sequence of accesses to the Error Code Catalog within one
process, exactly one GetErrorCodes RPC call is issued: the first access
fetches and caches the mapping, and every subsequent access returns the
cached mapping with no further RPC traffic. -/
theorem catalog_exactly_one_rpc_fetch (cat : List ErrorCodeEntry) (n : Nat) (h : 1 ≤ n) :
    (accessCatalog cat n ⟨none⟩).2 = 1 ∧
    (accessCatalog cat n ⟨none⟩).1 = ⟨some cat⟩ ∧
    StratisdErrorsGen.get_object cat ⟨none⟩ = (cat, ⟨some cat⟩, 1) ∧
    (∀ c : List ErrorCodeEntry,
      StratisdErrorsGen.get_object cat ⟨some c⟩ = (c, ⟨some c⟩, 0)) := by
  obtain ⟨m, rfl⟩ : ∃ m, n = m + 1 := ⟨n - 1, (Nat.succ_pred_eq_of_pos h).symm⟩
  refine ⟨?_, ?_, rfl, fun c => rfl⟩
  · simp [accessCatalog, StratisdErrorsGen.get_object, accessCatalog_cached]
  · simp [accessCatalog, StratisdErrorsGen.get_object, accessCatalog_cached]

theorem catalog_exactly_one_rpc_fetch_witness :
    (accessCatalog [("STRATIS_OK", 0, "ok")] 3 ⟨none⟩).2 = 1 :=
  (catalog_exactly_one_rpc_fetch [("STRATIS_OK", 0, "ok")] 3 (by decide)).1

/-- C4: For every symbolic error name known to the daemon's catalog, the
Error Code Catalog's lookup functions are mutual inverses: describe applied
to the result of code_for(name) returns the pair (name, description)
recorded for that name. -/
theorem code_for_describe_inverse (catalog : List ErrorCodeEntry)
    (name : String) (code : Int) (desc : String)
    (hnames : (catalog.map (fun e => e.1)).Nodup)
    (hcodes : (catalog.map (fun e => e.2.1)).Nodup)
    (hmem : (name, code, desc) ∈ catalog) :
    code_for catalog name = some code ∧ describe catalog code = some (name, desc) := by
  induction catalog with
  | nil => cases hmem
  | cons head tail ih =>
    simp only [List.map_cons, List.nodup_cons] at hnames hcodes
    rcases List.mem_cons.mp hmem with heq | hmemtail
    · constructor
      · unfold code_for
        rw [List.find?_cons_of_pos _ (by simp [← heq])]
        simp [← heq]
      · unfold describe
        rw [List.find?_cons_of_pos _ (by simp [← heq])]
        simp [← heq]
    · have hne1 : head.1 ≠ name := fun hc =>
        hnames.1 (hc ▸ List.mem_map_of_mem (fun e => e.1) hmemtail)
      have hne2 : head.2.1 ≠ code := fun hc =>
        hcodes.1 (hc ▸ List.mem_map_of_mem (fun e => e.2.1) hmemtail)
      have hname : (head.1 == name) = false := by simp [hne1]
      have hcode : (head.2.1 == code) = false := by simp [hne2]
      have step := ih hnames.2 hcodes.2 hmemtail
      constructor
      · unfold code_for at step ⊢
        rw [List.find?_cons]
        simp only [hname, cond_false]
        exact step.1
      · unfold describe at step ⊢
        rw [List.find?_cons]
        simp only [hcode, cond_false]
        exact step.2

theorem code_for_describe_inverse_witness :
    code_for [("STRATIS_OK", 0, "ok"), ("STRATIS_POOL_NOTFOUND", 2, "Pool not found")]
        "STRATIS_POOL_NOTFOUND" = some 2 ∧
      describe [("STRATIS_OK", 0, "ok"), ("STRATIS_POOL_NOTFOUND", 2, "Pool not found")]
        2 = some ("STRATIS_POOL_NOTFOUND", "Pool not found") :=
  code_for_describe_inverse
    [("STRATIS_OK", 0, "ok"), ("STRATIS_POOL_NOTFOUND", 2, "Pool not found")]
    "STRATIS_POOL_NOTFOUND" 2 "Pool not found" (by decide) (by decide) (by decide)

/-- C2: Running the command line ['filesystem', 'list', 'deadpool'] against a
daemon that has no pool named 'deadpool' raises a structured runtime error
(StratisCliRuntimeError) whose numeric code equals the Error Code Catalog's
STRATIS_POOL_NOTFOUND entry — not a transport error and not a silent empty
result. -/
theorem filesystem_list_deadpool_pool_notfound (d : Daemon) (code : Int)
    (hcode : code_for d.catalog "STRATIS_POOL_NOTFOUND" = some code)
    (hnz : code ≠ 0)
    (hnopool : d.pools.find? (fun p => p.1 == "deadpool") = none) :
    (run d ["filesystem", "list", "deadpool"]).2 =
      CliOutcome.runtimeError code "pool not found" := by
  have h1 : GetPoolObjectPathSem d "deadpool" = ("", code, "pool not found") := by
    unfold GetPoolObjectPathSem
    rw [hnopool]
    simp [Daemon.codeOf, hcode]
  have h2 : (code == 0) = false := by simp [hnz]
  show (listVolumesAction d "deadpool").2 = CliOutcome.runtimeError code "pool not found"
  unfold listVolumesAction
  rw [h1]
  simp [h2]

theorem filesystem_list_deadpool_pool_notfound_witness :
    (run ⟨[("STRATIS_OK", 0, "ok"), ("STRATIS_POOL_NOTFOUND", 2, "Pool not found")], [], []⟩
        ["filesystem", "list", "deadpool"]).2 =
      CliOutcome.runtimeError 2 "pool not found" :=
  filesystem_list_deadpool_pool_notfound
    ⟨[("STRATIS_OK", 0, "ok"), ("STRATIS_POOL_NOTFOUND", 2, "Pool not found")], [], []⟩
    2 (by decide) (by decide) (by decide)

/-- C7: Listing filesystems in an existing pool that contains no filesystems
succeeds (raises no error) and yields an empty ordered sequence. -/
theorem filesystem_list_empty_pool_succeeds (d : Daemon) (poolName : String)
    (h : d.pools.find? (fun p => p.1 == poolName) = some (poolName, [])) :
    (run d ["filesystem", "list", poolName]).2 = CliOutcome.ok [] := by
  have h1 : GetPoolObjectPathSem d poolName = (poolObjectPath poolName, 0, "") := by
    unfold GetPoolObjectPathSem
    rw [h]
  have h2 : (fun p : String × List String => poolObjectPath p.1 == poolObjectPath poolName) =
      (fun p : String × List String => p.1 == poolName) := by
    funext p
    exact poolObjectPath_beq p.1 poolName
  show (listVolumesAction d poolName).2 = CliOutcome.ok []
  unfold listVolumesAction
  rw [h1]
  simp only [beq_self_eq_true, if_true]
  unfold ListVolumesSem
  rw [h2, h]
  rfl

theorem filesystem_list_empty_pool_succeeds_witness :
    (run ⟨[("STRATIS_OK", 0, "ok")], [("deadpool", [])], []⟩
        ["filesystem", "list", "deadpool"]).2 = CliOutcome.ok [] :=
  filesystem_list_empty_pool_succeeds
    ⟨[("STRATIS_OK", 0, "ok")], [("deadpool", [])], []⟩ "deadpool" (by decide)

/-- C8: For every name-to-path resolution operation (GetPoolObjectPath,
GetVolumeObjectPath, GetCacheObjectPath) invoked with a name for which no
matching entity exists, the call fails with a domain "not found" status code
— not a transport error — and this failure occurs before any mutating
operation is attempted. -/
theorem resolution_notfound_before_mutation
    (d : Daemon) (poolName volumeName pool2 : String) (vols2 : List String)
    (cp cv cc : Int)
    (hp : d.pools.find? (fun p => p.1 == poolName) = none)
    (hnc : d.caches.contains poolName = false)
    (hq : d.pools.find? (fun p => p.1 == pool2) = some (pool2, vols2))
    (hv : vols2.contains volumeName = false)
    (hcp : code_for d.catalog "STRATIS_POOL_NOTFOUND" = some cp)
    (hcv : code_for d.catalog "STRATIS_VOLUME_NOTFOUND" = some cv)
    (hcc : code_for d.catalog "STRATIS_CACHE_NOTFOUND" = some cc)
    (hcpnz : cp ≠ 0) :
    GetPoolObjectPathSem d poolName = ("", cp, "pool not found") ∧
    GetVolumeObjectPathSem d poolName volumeName = ("", cp, "pool not found") ∧
    GetVolumeObjectPathSem d pool2 volumeName = ("", cv, "volume not found") ∧
    GetCacheObjectPathSem d poolName = ("", cc, "cache not found") ∧
    createVolumesAction d poolName [volumeName] =
      ([RpcCall.getPoolObjectPath poolName],
        CliOutcome.runtimeError cp "pool not found", d) ∧
    ([RpcCall.getPoolObjectPath poolName].all (fun r => !r.mutating)) = true := by
  have h1 : GetPoolObjectPathSem d poolName = ("", cp, "pool not found") := by
    unfold GetPoolObjectPathSem
    rw [hp]
    simp [Daemon.codeOf, hcp]
  have hnz : (cp == 0) = false := by simp [hcpnz]
  refine ⟨h1, ?_, ?_, ?_, ?_, rfl⟩
  · unfold GetVolumeObjectPathSem
    rw [hp]
    simp [Daemon.codeOf, hcp]
  · have hv' : volumeName ∉ vols2 := by simpa using hv
    unfold GetVolumeObjectPathSem
    rw [hq]
    simp [hv', Daemon.codeOf, hcv]
  · unfold GetCacheObjectPathSem
    rw [hnc]
    simp [Daemon.codeOf, hcc]
  · unfold createVolumesAction
    rw [h1]
    simp [hnz]

theorem resolution_notfound_before_mutation_witness :
    GetPoolObjectPathSem
        ⟨[("STRATIS_OK", 0, "ok"), ("STRATIS_POOL_NOTFOUND", 2, "p"),
          ("STRATIS_VOLUME_NOTFOUND", 3, "v"), ("STRATIS_CACHE_NOTFOUND", 4, "c")],
          [("livepool", ["vol1"])], []⟩ "deadpool" = ("", 2, "pool not found") ∧
    GetVolumeObjectPathSem
        ⟨[("STRATIS_OK", 0, "ok"), ("STRATIS_POOL_NOTFOUND", 2, "p"),
          ("STRATIS_VOLUME_NOTFOUND", 3, "v"), ("STRATIS_CACHE_NOTFOUND", 4, "c")],
          [("livepool", ["vol1"])], []⟩ "deadpool" "novol" = ("", 2, "pool not found") ∧
    GetVolumeObjectPathSem
        ⟨[("STRATIS_OK", 0, "ok"), ("STRATIS_POOL_NOTFOUND", 2, "p"),
          ("STRATIS_VOLUME_NOTFOUND", 3, "v"), ("STRATIS_CACHE_NOTFOUND", 4, "c")],
          [("livepool", ["vol1"])], []⟩ "livepool" "novol" = ("", 3, "volume not found") ∧
    GetCacheObjectPathSem
        ⟨[("STRATIS_OK", 0, "ok"), ("STRATIS_POOL_NOTFOUND", 2, "p"),
          ("STRATIS_VOLUME_NOTFOUND", 3, "v"), ("STRATIS_CACHE_NOTFOUND", 4, "c")],
          [("livepool", ["vol1"])], []⟩ "deadpool" = ("", 4, "cache not found") ∧
    createVolumesAction
        ⟨[("STRATIS_OK", 0, "ok"), ("STRATIS_POOL_NOTFOUND", 2, "p"),
          ("STRATIS_VOLUME_NOTFOUND", 3, "v"), ("STRATIS_CACHE_NOTFOUND", 4, "c")],
          [("livepool", ["vol1"])], []⟩ "deadpool" ["novol"] =
      ([RpcCall.getPoolObjectPath "deadpool"],
        CliOutcome.runtimeError 2 "pool not found",
        ⟨[("STRATIS_OK", 0, "ok"), ("STRATIS_POOL_NOTFOUND", 2, "p"),
          ("STRATIS_VOLUME_NOTFOUND", 3, "v"), ("STRATIS_CACHE_NOTFOUND", 4, "c")],
          [("livepool", ["vol1"])], []⟩) ∧
    ([RpcCall.getPoolObjectPath "deadpool"].all (fun r => !r.mutating)) = true :=
  resolution_notfound_before_mutation
    ⟨[("STRATIS_OK", 0, "ok"), ("STRATIS_POOL_NOTFOUND", 2, "p"),
      ("STRATIS_VOLUME_NOTFOUND", 3, "v"), ("STRATIS_CACHE_NOTFOUND", 4, "c")],
      [("livepool", ["vol1"])], []⟩
    "deadpool" "novol" "livepool" ["vol1"] 2 3 4
    (by decide) (by decide) (by decide) (by decide)
    (by decide) (by decide) (by decide) (by decide)
